import Mathlib

/-!
Verification of the session/token lifecycle and request contract of the
assistant-pronote-ia front end.

The definitions below are a shallow embedding of the JavaScript source:

* `src/frontend/js/api-client.js` (`APIClient`): header construction,
  `request`, `loginDirect`, `logout`, `isAuthenticated`;
* `src/frontend/js/auth.js` (`AuthManager`): `handleDirectLogin`,
  `handleLogout`, `isAuthenticated`;
* `src/frontend/js/pronote-data.js` (`PronoteDataManager`): `loadHomework`,
  `loadTimetable`, `loadGrades`, `displayGrades`;
* the chat manager (`ChatManager.sendMessage`).

Browser state (the token kept in `sessionStorage` mirrored in
`this.accessToken`, and `AuthManager.currentUser`) is passed explicitly.
The outcome of a `fetch` call is an explicit parameter (`FetchOutcome`):
either a network-level failure or a response with an HTTP status and a
parsed body.  JavaScript `throw` is modelled with `Except`, and JavaScript
truthiness of the string/field values involved is modelled explicitly.
-/

namespace AssistantPronote

/-! ### JavaScript value helpers -/

/-- A primitive JSON field value as it matters to this front end:
`null`, a number, or a string.  A *missing* field (JS `undefined`) is
modelled as `Option.none` at the use site. -/
inductive JsVal where
  | null
  | num (q : ℚ)
  | str (s : String)
deriving DecidableEq

/-- JavaScript truthiness of a `JsVal`: `null` is falsy, a number is truthy
iff nonzero, a string is truthy iff nonempty. -/
def JsVal.truthy : JsVal → Bool
  | .null => false
  | .num q => if q = 0 then false else true
  | .str s => if s = "" then false else true

/-- Truthiness of an optional field (`none` = the field is absent, i.e. JS
`undefined`, which is falsy). -/
def jsFieldTruthy : Option JsVal → Bool
  | none => false
  | some v => v.truthy

/-- Truthiness of an optional string (`none` = JS `null`/`undefined`; the
empty string is falsy).  Used for the token (`if (this.accessToken)`), for
`response.access_token` and for `response.response`. -/
def strTruthy : Option String → Bool
  | none => false
  | some s => if s = "" then false else true

/-- JS `a || b` for an optional string `a` against a string default `b`:
`a` is used when present and nonempty (truthy), otherwise `b`. -/
def jsOrStr (a : Option String) (b : String) : String :=
  match a with
  | some s => if s = "" then b else s
  | none => b

/-- A JS value that is either `undefined`, `null`, or a proper value.
Needed where the source distinguishes the two empty states
(`AuthManager.currentUser` is compared against `null` with `!==`). -/
inductive JsOpt (α : Type) where
  | undef
  | null
  | val (a : α)
deriving DecidableEq

/-- Whether a `JsOpt` holds a proper value (is neither `undefined` nor
`null`). -/
def JsOpt.isVal : JsOpt α → Bool
  | .val _ => true
  | _ => false

/-- JS strict comparison `x !== null` for a `JsOpt`: only `null` itself is
equal to `null`; in particular `undefined !== null` is `true`. -/
def jsStrictNeNull : JsOpt α → Bool
  | .null => false
  | _ => true

/-! ### Request header construction (api-client.js, lines 52-67)

`request` builds `defaultHeaders` with `Content-Type`, adds
`Authorization: Bearer <token>` when `this.accessToken` is truthy, and then
merges `options.headers` over it with object-spread semantics
(`{...defaultHeaders, ...options.headers}`): a later key overwrites the
value of an earlier one in place, a fresh key is appended. -/

/-- Object-spread insertion of one `key, value` pair: if the key is already
present its value is overwritten in place, otherwise the pair is appended. -/
def insertProp (l : List (String × String)) (kv : String × String) :
    List (String × String) :=
  if l.any (fun p => p.1 == kv.1) then
    l.map (fun p => if p.1 == kv.1 then (p.1, kv.2) else p)
  else
    l ++ [kv]

/-- JS object spread `{...base, ...ext}` on string-keyed records. -/
def mergeObj (base ext : List (String × String)) : List (String × String) :=
  ext.foldl insertProp base

/-- The `defaultHeaders` object of `APIClient.request`: always
`Content-Type: application/json`; additionally
`Authorization: Bearer <token>` when the held token is truthy. -/
def defaultHeaders (token : Option String) : List (String × String) :=
  if strTruthy token then
    [("Content-Type", "application/json"),
     ("Authorization", "Bearer " ++ token.getD "")]
  else
    [("Content-Type", "application/json")]

/-- The headers of the outgoing request:
`{...defaultHeaders, ...options.headers}`. -/
def requestHeaders (token : Option String)
    (optionHeaders : List (String × String)) : List (String × String) :=
  mergeObj (defaultHeaders token) optionHeaders

/-! ### The transport layer (APIClient.request, api-client.js lines 49-94) -/

/-- The JSON error body the `request` method inspects on a non-2xx
response: `errorData.detail || errorData.error || ...`. -/
structure ErrBody where
  detail : Option String
  error : Option String
deriving DecidableEq

/-- The outcome of the underlying `fetch` call, supplied by the
environment: either a rejected promise (network-level failure, carrying the
environment's error text) or a response with an HTTP status, an optional
parseable JSON error body (`none` models an absent or unparseable body,
which `.catch(() => ({}))` turns into `{}`), and the payload that
`response.json()` would produce on the success path. -/
inductive FetchOutcome (α : Type) where
  | netFail (msg : String)
  | resp (status : Nat) (errBody : Option ErrBody) (data : α)

/-- The errors `request` can throw, by throw site.  The JS code throws
plain `Error` objects; the constructor here records which of the spec's
error kinds the throw site corresponds to, and the carried message is the
`Error`'s message. -/
inductive ReqError where
  | sessionExpired (msg : String)
  | requestFailed (status : Nat) (msg : String)
  | networkUnavailable (msg : String)
deriving DecidableEq

/-- The `message` property of the thrown `Error`. -/
def ReqError.message : ReqError → String
  | .sessionExpired m => m
  | .requestFailed _ m => m
  | .networkUnavailable m => m

/-- The fixed message thrown on a 401 response
(api-client.js line 78). -/
def sessionExpiredMessage : String :=
  "Session expirée. Veuillez vous reconnecter."

/-- The message of the error thrown on another non-2xx status
(api-client.js line 83):
`errorData.detail || errorData.error || 'Erreur HTTP <status>'`,
where an absent or unparseable body was replaced by `{}`. -/
def httpErrorMessage (errBody : Option ErrBody) (status : Nat) : String :=
  let eb := errBody.getD ⟨none, none⟩
  jsOrStr eb.detail (jsOrStr eb.error ("Erreur HTTP " ++ toString status))

/-- `APIClient.request`.  State (the held token) is passed and returned
explicitly; the result is the new token state together with either the
parsed JSON payload or the thrown error.  Mirrors api-client.js lines
71-93: a 401 clears the token and throws the fixed session-expired
message; any other non-2xx (`!response.ok`, i.e. status outside 200-299)
throws the parsed-or-generic message; a 2xx returns the payload; the outer
`catch` only logs and rethrows the same error, so it is the identity on
outcomes. -/
def request (token : Option String) (outcome : FetchOutcome α) :
    Option String × Except ReqError α :=
  match outcome with
  | .netFail m => (token, .error (.networkUnavailable m))
  | .resp status errBody data =>
    if status = 401 then
      (none, .error (.sessionExpired sessionExpiredMessage))
    else if ¬ (200 ≤ status ∧ status ≤ 299) then
      (token, .error (.requestFailed status (httpErrorMessage errBody status)))
    else
      (token, .ok data)

/-! ### Helper lemmas for the header claim -/

/-- Updating the value of a key different from `K` does not change the
entries with key `K`. -/
theorem filter_map_update (K : String) (kv : String × String)
    (h : kv.1 ≠ K) :
    ∀ l : List (String × String),
      (l.map (fun p => if p.1 == kv.1 then (p.1, kv.2) else p)).filter
          (fun p => p.1 == K)
        = l.filter (fun p => p.1 == K)
  | [] => rfl
  | a :: t => by
    have ih := filter_map_update K kv h t
    simp only [beq_iff_eq] at ih
    simp only [List.map_cons, List.filter_cons]
    by_cases haK : a.1 = K
    · have hakb : (a.1 == kv.1) = false := by
        refine beq_eq_false_iff_ne.mpr ?_
        intro e
        exact h (e ▸ haK)
      have haKb : (a.1 == K) = true := beq_iff_eq.mpr haK
      simp [hakb, haKb, ih]
    · have haKb : (a.1 == K) = false := beq_eq_false_iff_ne.mpr haK
      by_cases hak : a.1 = kv.1
      · have hakb : (a.1 == kv.1) = true := beq_iff_eq.mpr hak
        simp [hakb, haKb, ih]
      · have hakb : (a.1 == kv.1) = false := beq_eq_false_iff_ne.mpr hak
        simp [hakb, haKb, ih]

/-- Spreading a property whose key differs from `K` over a record does not
change the entries with key `K`. -/
theorem filter_insertProp (K : String) (l : List (String × String))
    (kv : String × String) (h : kv.1 ≠ K) :
    (insertProp l kv).filter (fun p => p.1 == K)
      = l.filter (fun p => p.1 == K) := by
  unfold insertProp
  by_cases hany : l.any (fun p => p.1 == kv.1)
  · simp only [hany, if_true]
    exact filter_map_update K kv h l
  · simp only [hany, if_false]
    have : (kv.1 == K) = false := by simp [h]
    simp [List.filter_append, List.filter, this]

/-- Spreading a record none of whose keys is `K` does not change the
entries with key `K`. -/
theorem filter_mergeObj (K : String) (ext : List (String × String)) :
    ∀ base : List (String × String),
      (∀ p ∈ ext, p.1 ≠ K) →
      (mergeObj base ext).filter (fun p => p.1 == K)
        = base.filter (fun p => p.1 == K) := by
  induction ext with
  | nil => intro base _; rfl
  | cons a t ih =>
    intro base h
    have step : mergeObj base (a :: t) = mergeObj (insertProp base a) t := rfl
    rw [step, ih (insertProp base a) (fun p hp => h p (List.mem_cons_of_mem a hp)),
      filter_insertProp K base a (h a (List.mem_cons_self a t))]

/-- Claim C1: for every call to `APIClient.request`, if the client holds a
(truthy) token then the outgoing request carries exactly one
`Authorization` header, whose value is `Bearer ` followed by the token held
at call time; if no token is held, no `Authorization` header is present.
The hypothesis that the caller-supplied `options.headers` contains no
`Authorization` key holds at every call site of the repository: `get`,
`post` and `delete` pass no `headers` option at all. -/
theorem C1_authorization_header (t : String)
    (optionHeaders : List (String × String)) (ht : t ≠ "")
    (hopt : ∀ p ∈ optionHeaders, p.1 ≠ "Authorization") :
    (requestHeaders (some t) optionHeaders).filter
        (fun p => p.1 == "Authorization")
      = [("Authorization", "Bearer " ++ t)]
    ∧ (requestHeaders none optionHeaders).filter
        (fun p => p.1 == "Authorization")
      = [] := by
  constructor
  · rw [requestHeaders, filter_mergeObj "Authorization" optionHeaders _ hopt]
    have hct : (("Content-Type" : String) == "Authorization") = false := by decide
    have hau : (("Authorization" : String) == "Authorization") = true := by decide
    simp [defaultHeaders, strTruthy, ht, List.filter, hct, hau]
  · rw [requestHeaders, filter_mergeObj "Authorization" optionHeaders _ hopt]
    have hct : (("Content-Type" : String) == "Authorization") = false := by decide
    simp [defaultHeaders, strTruthy, List.filter, hct]

/-- Witness for C1 at a concrete token and the empty `options.headers`
every repository call site passes. -/
theorem C1_authorization_header_witness :
    (requestHeaders (some "abc123") []).filter
        (fun p => p.1 == "Authorization")
      = [("Authorization", "Bearer " ++ "abc123")]
    ∧ (requestHeaders none []).filter (fun p => p.1 == "Authorization")
      = [] :=
  C1_authorization_header "abc123" [] (by decide) (by simp)

/-- Claim C2: every `APIClient.request` call that receives an HTTP 401
response clears the token store (the token is `none` afterwards whatever
stale value was held) and throws the fixed user-facing session-expired
message instead of returning a value. -/
theorem C2_unauthorized_clears_token (token : Option String)
    (errBody : Option ErrBody) (d : α) :
    request token (.resp 401 errBody d)
      = (none, .error (.sessionExpired sessionExpiredMessage))
    ∧ sessionExpiredMessage = "Session expirée. Veuillez vous reconnecter." :=
  ⟨rfl, rfl⟩

/-- Claim C9: every `APIClient.request` call that receives a non-2xx,
non-401 response throws a request-failed error whose message is taken from
a human-readable field (`detail`, then `error`) of the response's JSON
error body when one parses to a nonempty string, and otherwise falls back
to the generic `Erreur HTTP <status>` message; the token is untouched and
the call does not return a value. -/
theorem C9_request_failed_message (token : Option String) (status : Nat)
    (errBody : Option ErrBody) (d : α) (dtl : String)
    (hok : ¬ (200 ≤ status ∧ status ≤ 299)) (h401 : status ≠ 401)
    (hdtl : dtl ≠ "") :
    request token (.resp status errBody d)
      = (token, .error (.requestFailed status (httpErrorMessage errBody status)))
    ∧ httpErrorMessage none status = "Erreur HTTP " ++ toString status
    ∧ (∀ er, httpErrorMessage (some ⟨some dtl, er⟩) status = dtl)
    ∧ (∀ er, er ≠ "" → httpErrorMessage (some ⟨none, some er⟩) status = er)
    ∧ httpErrorMessage (some ⟨none, none⟩) status
        = "Erreur HTTP " ++ toString status
    ∧ httpErrorMessage (some ⟨some "", some ""⟩) status
        = "Erreur HTTP " ++ toString status := by
  refine ⟨?_, rfl, ?_, ?_, rfl, rfl⟩
  · rw [request]
    rw [if_neg h401, if_pos hok]
  · intro er
    simp [httpErrorMessage, jsOrStr, hdtl]
  · intro er her
    simp [httpErrorMessage, jsOrStr, her]

/-- Witness for C9 at status 500 with, first, no parseable body (generic
message) and, second, a `detail` field. -/
theorem C9_request_failed_message_witness :
    request (some "tok") (FetchOutcome.resp 500 none ())
      = (some "tok",
          .error (.requestFailed 500 ("Erreur HTTP " ++ toString 500)))
    ∧ httpErrorMessage (some ⟨some "Oops", none⟩) 500 = "Oops" := by
  have h := C9_request_failed_message (some "tok") 500 none () "Oops"
    (by decide) (by decide) (by decide)
  exact ⟨h.1.trans (by rw [h.2.1]), h.2.2.1 none⟩

/-- Witness for C2: a stale token held before the 401 is gone afterwards
and the fixed message is thrown. -/
theorem C2_unauthorized_clears_token_witness :
    request (some "stale") (FetchOutcome.resp 401 none ())
      = (none, .error (.sessionExpired sessionExpiredMessage))
    ∧ sessionExpiredMessage = "Session expirée. Veuillez vous reconnecter." :=
  C2_unauthorized_clears_token (some "stale") none ()

/-! ### The data-fetch façade (pronote-data.js)

Each loader calls the corresponding `APIClient` endpoint (which is
`request` with a POST body), then renders: a thrown error becomes the
error view, a response failing `response.success && response.<field>`
becomes the empty view, and a well-shaped response is displayed (which is
again the empty view when the array is empty).  The DOM container is
abstracted into a `ViewState` value. -/

/-- One attachment of a homework item (rendering only). -/
structure FileLink where
  name : String
  url : String
deriving DecidableEq

/-- A homework item as consumed by `displayHomework`. -/
structure HomeworkItem where
  subject : String
  description : String
  date : String
  done : Bool
  files : Option (List FileLink)
deriving DecidableEq

/-- A lesson item as consumed by `displayTimetable`.  The `end` timestamp
of the source is named `endTime` because `end` is reserved in Lean; the
remaining fields keep their source names. -/
structure LessonItem where
  subject : String
  teacher : Option String
  start : String
  endTime : String
  classroom : Option String
  canceled : Bool
deriving DecidableEq

/-- A grade item as consumed by `displayGrades`.  `grade`, `out_of`,
`coefficient` and `date` are raw JSON fields (the backend may send
numbers, strings or `null`; `none` models a missing field). -/
structure GradeItem where
  subject : String
  grade : Option JsVal
  out_of : Option JsVal
  coefficient : Option JsVal
  date : Option JsVal
  comment : Option String
deriving DecidableEq

/-- The response envelope of the homework endpoint. -/
structure HomeworkResponse where
  success : Bool
  homework : Option (List HomeworkItem)
deriving DecidableEq

/-- The response envelope of the timetable endpoint. -/
structure TimetableResponse where
  success : Bool
  timetable : Option (List LessonItem)
deriving DecidableEq

/-- The response envelope of the grades endpoint. -/
structure GradesResponse where
  success : Bool
  grades : Option (List GradeItem)
deriving DecidableEq

/-- What a data view container shows after a load: the loading spinner is
transient, so the observable outcomes are the empty state, the error
state, or rendered data. -/
inductive ViewState (α : Type) where
  | empty (msg : String)
  | errorView (msg : String)
  | dataView (items : List α)
deriving DecidableEq

/-- `PronoteDataManager.displayHomework`: an empty list renders the empty
state, otherwise the items are rendered. -/
def displayHomework (hws : List HomeworkItem) : ViewState HomeworkItem :=
  if hws.isEmpty then .empty "Aucun devoir à venir" else .dataView hws

/-- `PronoteDataManager.loadHomework` (pronote-data.js lines 40-63),
parametrised by the fetch outcome.  Returns the token state left by the
transport call together with the rendered view. -/
def loadHomework (token : Option String)
    (outcome : FetchOutcome HomeworkResponse) :
    Option String × ViewState HomeworkItem :=
  match request token outcome with
  | (tok, .error _) =>
    (tok, .errorView "Erreur lors du chargement des devoirs")
  | (tok, .ok r) =>
    if r.success && r.homework.isSome then
      (tok, displayHomework (r.homework.getD []))
    else
      (tok, .empty "Aucun devoir à venir")

/-- `PronoteDataManager.displayTimetable`: an empty list renders the empty
state, otherwise the lessons are rendered (grouping by day and sorting
are presentation detail carried by the item list). -/
def displayTimetable (lessons : List LessonItem) : ViewState LessonItem :=
  if lessons.isEmpty then .empty "Aucun cours cette semaine"
  else .dataView lessons

/-- `PronoteDataManager.loadTimetable` (pronote-data.js lines 68-97). -/
def loadTimetable (token : Option String)
    (outcome : FetchOutcome TimetableResponse) :
    Option String × ViewState LessonItem :=
  match request token outcome with
  | (tok, .error _) =>
    (tok, .errorView "Erreur lors du chargement de l\x27emploi du temps")
  | (tok, .ok r) =>
    if r.success && r.timetable.isSome then
      (tok, displayTimetable (r.timetable.getD []))
    else
      (tok, .empty "Aucun cours cette semaine")

/-- The entries `displayGrades` lets into the average computation
(pronote-data.js line 261): `grades.filter(g => g.grade && g.out_of)`. -/
def validGrades (grades : List GradeItem) : List GradeItem :=
  grades.filter (fun g => jsFieldTruthy g.grade && jsFieldTruthy g.out_of)

/-- JS `parseFloat` on a field value, restricted to what this code feeds
it: plain decimal literals (optional sign, digits, optional fraction;
the scientific-notation and `Infinity` forms do not occur here).  `none`
models `NaN`. -/
def digitsToNat (ds : List Char) : Nat :=
  ds.foldl (fun a c => a * 10 + (c.toNat - 48)) 0

/-- Character classes used by the decimal parser. -/
def isMinus (c : Char) : Bool := c == ('-')

/-- Plus-sign test. -/
def isPlus (c : Char) : Bool := c == ('+')

/-- Decimal-point test. -/
def isDot (c : Char) : Bool := c == ('.')

/-- Leading-whitespace test of `parseFloat`. -/
def isSpaceChar (c : Char) : Bool :=
  c == (' ') || c == ('\t') || c == ('\n') || c == ('\r')

/-- The decimal fragment of JS `parseFloat` on a string, split into its
sign, integer-digit value, fraction-digit value and fraction length;
`none` when no digit is found (`NaN`). -/
def parseDecimalParts (s : String) : Option (Bool × Nat × Nat × Nat) :=
  let cs := s.data.dropWhile isSpaceChar
  let neg := match cs with
    | c :: _ => isMinus c
    | [] => false
  let body := match cs with
    | c :: r => if isMinus c || isPlus c then r else cs
    | [] => []
  let intPart := body.takeWhile Char.isDigit
  let rest := body.dropWhile Char.isDigit
  let fracPart := match rest with
    | c :: r => if isDot c then r.takeWhile Char.isDigit else []
    | [] => []
  if intPart.isEmpty && fracPart.isEmpty then none
  else
    some (neg, digitsToNat intPart, digitsToNat fracPart, fracPart.length)

/-- The rational value of the parsed decimal. -/
def parseDecimal (s : String) : Option ℚ :=
  match parseDecimalParts s with
  | none => none
  | some (neg, ip, fp, fl) =>
    let mag : ℚ := (ip : ℚ) + (fp : ℚ) / ((10 : ℚ) ^ fl)
    some (if neg then -mag else mag)

/-- `parseFloat` applied to a raw JSON field: a number parses to itself, a
string through `parseDecimal`, and `null` or a missing field to `NaN`
(modelled `none`). -/
def parseFloatJs : Option JsVal → Option ℚ
  | none => none
  | some .null => none
  | some (.num q) => some q
  | some (.str s) => parseDecimal s

/-- JS addition with `NaN` propagation. -/
def jsAdd (a b : Option ℚ) : Option ℚ :=
  match a, b with
  | some x, some y => some (x + y)
  | _, _ => none

/-- JS multiplication with `NaN` propagation. -/
def jsMul (a b : Option ℚ) : Option ℚ :=
  match a, b with
  | some x, some y => some (x * y)
  | _, _ => none

/-- JS division with `NaN` propagation; a zero divisor (JS `Infinity`) is
also mapped to the non-finite result `none`. -/
def jsDiv (a b : Option ℚ) : Option ℚ :=
  match a, b with
  | some x, some y => if y = 0 then none else some (x / y)
  | _, _ => none

/-- One summand of the average (pronote-data.js line 264):
`(parseFloat(g.grade) / parseFloat(g.out_of)) * 20`. -/
def gradeTerm (g : GradeItem) : Option ℚ :=
  jsMul (jsDiv (parseFloatJs g.grade) (parseFloatJs g.out_of)) (some 20)

/-- The overall average `displayGrades` renders (pronote-data.js lines
261-265): the sum of `gradeTerm` over the valid grades divided by their
count; `none` when there is no valid grade (the summary block is not
rendered) or when a term is non-finite. -/
def gradesAverage (grades : List GradeItem) : Option ℚ :=
  let v := validGrades grades
  if v.length = 0 then none
  else jsDiv (v.foldl (fun acc g => jsAdd acc (gradeTerm g)) (some 0))
    (some (v.length : ℚ))

/-- The grade entries `displayGrades` renders in the list (pronote-data.js
line 284): entries with a falsy `grade` are skipped
(`if (!grade.grade) return`). -/
def renderedGrades (grades : List GradeItem) : List GradeItem :=
  grades.filter (fun g => jsFieldTruthy g.grade)

/-- `PronoteDataManager.displayGrades` at view granularity: an empty grade
list renders the empty state, otherwise the view holds the entries whose
grade is truthy (the average summary is `gradesAverage`). -/
def displayGrades (grades : List GradeItem) : ViewState GradeItem :=
  if grades.isEmpty then .empty "Aucune note disponible"
  else .dataView (renderedGrades grades)

/-- `PronoteDataManager.loadGrades` (pronote-data.js lines 102-121). -/
def loadGrades (token : Option String)
    (outcome : FetchOutcome GradesResponse) :
    Option String × ViewState GradeItem :=
  match request token outcome with
  | (tok, .error _) =>
    (tok, .errorView "Erreur lors du chargement des notes")
  | (tok, .ok r) =>
    if r.success && r.grades.isSome then
      (tok, displayGrades (r.grades.getD []))
    else
      (tok, .empty "Aucune note disponible")

/-- Claim C3: for each data-fetch call (homework, timetable, grades), a
2xx response with `success: false` or with the expected array field
missing yields the empty state, never an error; a transport-level failure
(network unreachable, or a non-2xx status such as 500) yields the
user-visible error state, never a silent empty state. -/
theorem C3_data_fetch_states (token : Option String) (m : String)
    (eb : Option ErrBody) (rh : HomeworkResponse) (rt : TimetableResponse)
    (rg : GradesResponse)
    (hh : rh.success = false ∨ rh.homework = none)
    (ht : rt.success = false ∨ rt.timetable = none)
    (hg : rg.success = false ∨ rg.grades = none) :
    (loadHomework token (.resp 200 eb rh)).2 = .empty "Aucun devoir à venir"
    ∧ (loadHomework token (.netFail m)).2
        = .errorView "Erreur lors du chargement des devoirs"
    ∧ (loadHomework token (.resp 500 eb rh)).2
        = .errorView "Erreur lors du chargement des devoirs"
    ∧ (loadTimetable token (.resp 200 eb rt)).2
        = .empty "Aucun cours cette semaine"
    ∧ (loadTimetable token (.netFail m)).2
        = .errorView "Erreur lors du chargement de l\x27emploi du temps"
    ∧ (loadTimetable token (.resp 500 eb rt)).2
        = .errorView "Erreur lors du chargement de l\x27emploi du temps"
    ∧ (loadGrades token (.resp 200 eb rg)).2 = .empty "Aucune note disponible"
    ∧ (loadGrades token (.netFail m)).2
        = .errorView "Erreur lors du chargement des notes"
    ∧ (loadGrades token (.resp 500 eb rg)).2
        = .errorView "Erreur lors du chargement des notes" := by
  refine ⟨?_, rfl, rfl, ?_, rfl, rfl, ?_, rfl, rfl⟩
  · rcases hh with h | h <;>
      simp [loadHomework, request, h]
  · rcases ht with h | h <;>
      simp [loadTimetable, request, h]
  · rcases hg with h | h <;>
      simp [loadGrades, request, h]

/-- Witness for C3 at `success: false` responses. -/
theorem C3_data_fetch_states_witness :
    (loadHomework none (.resp 200 none ⟨false, none⟩)).2
      = .empty "Aucun devoir à venir"
    ∧ (loadHomework none (.netFail "Failed to fetch")).2
        = .errorView "Erreur lors du chargement des devoirs" := by
  have h := C3_data_fetch_states none "Failed to fetch" none ⟨false, none⟩
    ⟨false, none⟩ ⟨false, none⟩ (Or.inl rfl) (Or.inl rfl) (Or.inl rfl)
  exact ⟨h.1, h.2.1⟩

/-! ### Session lifecycle (api-client.js and auth.js) -/

/-- The student profile embedded in a login response
(`response.student`). -/
structure Student where
  student_name : String
  class_name : Option String
deriving DecidableEq

/-- The body of a direct-login response: `success`, an optional
`access_token` (`none` when the field is missing or `null`), and the
`student` field, which the source assigns to `currentUser` as-is, so its
missing/`null`/value distinction matters. -/
structure LoginResponse where
  success : Bool
  access_token : Option String
  student : JsOpt Student
deriving DecidableEq

/-- The client-side session state: the token held by `APIClient`
(mirroring `sessionStorage`) and `AuthManager.currentUser`. -/
structure AuthState where
  token : Option String
  currentUser : JsOpt Student
deriving DecidableEq

/-- `APIClient.isAuthenticated` (api-client.js lines 42-44):
`!!this.accessToken`. -/
def clientIsAuthenticated (token : Option String) : Bool :=
  strTruthy token

/-- `AuthManager.isAuthenticated` (auth.js lines 274-276):
`apiClient.isAuthenticated() && this.currentUser !== null`. -/
def managerIsAuthenticated (s : AuthState) : Bool :=
  clientIsAuthenticated s.token && jsStrictNeNull s.currentUser

/-- `APIClient.loginDirect` (api-client.js lines 127-140): posts
credentials, then stores the token when
`response.success && response.access_token` is truthy, and returns the
whole response; a transport error propagates. -/
def loginDirect (token : Option String)
    (outcome : FetchOutcome LoginResponse) :
    Option String × Except ReqError LoginResponse :=
  match request token outcome with
  | (tok, .error e) => (tok, .error e)
  | (tok, .ok resp) =>
    if resp.success && strTruthy resp.access_token then
      (resp.access_token, .ok resp)
    else
      (tok, .ok resp)

/-- What `AuthManager.handleDirectLogin` leaves on screen: the dashboard
for a student, or an error banner with a message. -/
inductive LoginUiOutcome where
  | success (user : Student)
  | errorShown (msg : String)
deriving DecidableEq

/-- Whether the login flow ended in the error banner. -/
def LoginUiOutcome.isError : LoginUiOutcome → Bool
  | .errorShown _ => true
  | .success _ => false

/-- The message of the `TypeError` raised when `onLoginSuccess` reads
`this.currentUser.student_name` while `currentUser` is `undefined` or
`null` (the exact text is the browser's; this fixed rendering follows the
common V8 wording). -/
def typeErrorStudentName (cu : JsOpt Student) : String :=
  match cu with
  | .undef => "Cannot read properties of undefined (reading \x27student_name\x27)"
  | .null => "Cannot read properties of null (reading \x27student_name\x27)"
  | .val _ => ""

/-- `AuthManager.handleDirectLogin` (auth.js lines 82-116), from the point
where the credentials fields are non-empty.  On a thrown transport error
the catch shows `error.message || 'Erreur de connexion'`.  On a response
with truthy `success` the source assigns `currentUser = response.student`
and calls `onLoginSuccess()`, which reads `currentUser.student_name`: with
a proper student the dashboard is shown, otherwise the `TypeError`
propagates to the same catch.  On falsy `success` the fixed failure
message is shown. -/
def handleDirectLogin (a : AuthState)
    (outcome : FetchOutcome LoginResponse) : AuthState × LoginUiOutcome :=
  match loginDirect a.token outcome with
  | (tok, .error e) =>
    (⟨tok, a.currentUser⟩, .errorShown (jsOrStr (some e.message) "Erreur de connexion"))
  | (tok, .ok resp) =>
    if resp.success then
      match resp.student with
      | .val st => (⟨tok, .val st⟩, .success st)
      | cu =>
        (⟨tok, cu⟩,
          .errorShown (jsOrStr (some (typeErrorStudentName cu)) "Erreur de connexion"))
    else
      (⟨tok, a.currentUser⟩, .errorShown "Échec de l\x27authentification")

/-- `APIClient.logout` (api-client.js lines 163-169):
`try { post(...) } finally { clearToken() }` — the token is cleared
whatever happens, and a failure of the POST is rethrown after the
`finally` block. -/
def logout (token : Option String) (outcome : FetchOutcome Unit) :
    Option String × Except ReqError Unit :=
  (none, (request token outcome).2)

/-- `AuthManager.handleLogout` (auth.js lines 160-170): calls
`apiClient.logout()`; the catch only logs the error, and the `finally`
runs `onLogoutSuccess()`, which sets `currentUser = null`.  The second
component is the error that propagates to the caller. -/
def handleLogout (a : AuthState) (outcome : FetchOutcome Unit) :
    AuthState × Option ReqError :=
  let res := logout a.token outcome
  (⟨res.1, .null⟩,
    match res.2 with
    | .ok _ => none
    | .error _ => none)

/-- Claim C4 counterexample: the claim says a malformed response must fail
with `AuthenticationRejected`, but on the malformed response
`{success: true, student: {...}}` with no `access_token` field the login
proceeds to the dashboard (no failure) and no token is stored. -/
theorem C4_malformed_login_counterexample :
    (handleDirectLogin ⟨none, JsOpt.null⟩
        (.resp 200 none ⟨true, none, JsOpt.val ⟨"Alice", none⟩⟩)).2
      = .success ⟨"Alice", none⟩
    ∧ LoginUiOutcome.isError
        (handleDirectLogin ⟨none, JsOpt.null⟩
          (.resp 200 none ⟨true, none, JsOpt.val ⟨"Alice", none⟩⟩)).2
      = false
    ∧ (handleDirectLogin ⟨none, JsOpt.null⟩
        (.resp 200 none ⟨true, none, JsOpt.val ⟨"Alice", none⟩⟩)).1.token
      = none := by
  refine ⟨rfl, rfl, rfl⟩

/-- Claim C4 (amended): on a 2xx direct-login response, (1) if `success`
is true and the token field is truthy, the token is stored; (2) if the
token field is falsy the stored token is unchanged — in particular a
`success: true` response without a token field does not fail but proceeds
with the embedded profile; (3) on `success: false` the flow fails with the
fixed authentication-failure message and stores nothing; (4) on `success:
true` with a well-formed student, that student becomes the current user
and the dashboard is shown. -/
theorem C4_login_behavior (a : AuthState) (resp : LoginResponse)
    (st : Student) :
    (resp.success = true → strTruthy resp.access_token = true →
      (handleDirectLogin a (.resp 200 none resp)).1.token
        = resp.access_token)
    ∧ (strTruthy resp.access_token = false →
        (handleDirectLogin a (.resp 200 none resp)).1.token = a.token)
    ∧ (resp.success = false →
        handleDirectLogin a (.resp 200 none resp)
          = (⟨a.token, a.currentUser⟩,
              .errorShown "Échec de l\x27authentification"))
    ∧ (resp.success = true → resp.student = .val st →
        (handleDirectLogin a (.resp 200 none resp)).2 = .success st
        ∧ (handleDirectLogin a (.resp 200 none resp)).1.currentUser
            = .val st) := by
  have hreq : request a.token (.resp 200 none resp) = (a.token, .ok resp) := rfl
  refine ⟨?_, ?_, ?_, ?_⟩
  · intro hs htok
    rcases hst : resp.student with _ | _ | u <;>
      simp [handleDirectLogin, loginDirect, hreq, hs, htok, hst]
  · intro htok
    by_cases hs : resp.success
    · rcases hst : resp.student with _ | _ | u <;>
        simp [handleDirectLogin, loginDirect, hreq, hs, htok, hst]
    · simp [handleDirectLogin, loginDirect, hreq, hs, htok]
  · intro hs
    simp [handleDirectLogin, loginDirect, hreq, hs]
  · intro hs hst
    by_cases htok : strTruthy resp.access_token <;>
      simp [handleDirectLogin, loginDirect, hreq, hs, hst, htok]

/-- Witness for the amended C4 at the Scenario A response
`{success: true, access_token: "abc123", student: {student_name:
"Alice"}}`. -/
theorem C4_login_behavior_witness :
    (handleDirectLogin ⟨none, JsOpt.null⟩
        (.resp 200 none ⟨true, some "abc123", JsOpt.val ⟨"Alice", none⟩⟩)).1.token
      = some "abc123"
    ∧ (handleDirectLogin ⟨none, JsOpt.null⟩
        (.resp 200 none ⟨true, some "abc123", JsOpt.val ⟨"Alice", none⟩⟩)).2
      = .success ⟨"Alice", none⟩ := by
  have h := C4_login_behavior ⟨none, JsOpt.null⟩
    ⟨true, some "abc123", JsOpt.val ⟨"Alice", none⟩⟩ ⟨"Alice", none⟩
  exact ⟨h.1 rfl (by decide), (h.2.2.2 rfl rfl).1⟩

/-- Claim C5: `logout()` (the session-lifecycle operation
`AuthManager.handleLogout`, built on `APIClient.logout`, whose `finally`
clears the token unconditionally) leaves the token store empty whatever
the backend outcome, and swallows any failure of the logout request — no
error propagates to the caller; and the same holds for an immediate
second call. -/
theorem C5_logout_idempotent (a : AuthState) (o1 o2 : FetchOutcome Unit) :
    (handleLogout a o1).1.token = none
    ∧ (handleLogout a o1).2 = none
    ∧ (handleLogout (handleLogout a o1).1 o2).1.token = none
    ∧ (handleLogout (handleLogout a o1).1 o2).2 = none := by
  refine ⟨rfl, ?_, rfl, ?_⟩
  · show (match (request a.token o1).2 with
      | .ok _ => (none : Option ReqError)
      | .error _ => none) = none
    rcases (request a.token o1).2 with _ | _ <;> rfl
  · show (match (request (handleLogout a o1).1.token o2).2 with
      | .ok _ => (none : Option ReqError)
      | .error _ => none) = none
    rcases (request (handleLogout a o1).1.token o2).2 with _ | _ <;> rfl

/-- Witness for C5: a logout whose POST fails on the network, followed by
a second logout that succeeds. -/
theorem C5_logout_idempotent_witness :
    (handleLogout ⟨some "tok", JsOpt.val ⟨"Alice", none⟩⟩
        (.netFail "Failed to fetch")).1.token = none
    ∧ (handleLogout ⟨some "tok", JsOpt.val ⟨"Alice", none⟩⟩
        (.netFail "Failed to fetch")).2 = none
    ∧ (handleLogout
        (handleLogout ⟨some "tok", JsOpt.val ⟨"Alice", none⟩⟩
          (.netFail "Failed to fetch")).1
        (.resp 200 none ())).1.token = none
    ∧ (handleLogout
        (handleLogout ⟨some "tok", JsOpt.val ⟨"Alice", none⟩⟩
          (.netFail "Failed to fetch")).1
        (.resp 200 none ())).2 = none :=
  C5_logout_idempotent ⟨some "tok", JsOpt.val ⟨"Alice", none⟩⟩
    (.netFail "Failed to fetch") (.resp 200 none ())

/-- Claim C6 counterexample: the claim says `isAuthenticated()` is true
only when a profile is non-absent, but the state reached by a stale-token
session receiving the malformed login response `{success: true}` (no
`student` field) holds `currentUser = undefined` — an absent profile —
and `isAuthenticated()` still returns true, because the source compares
`currentUser !== null` and `undefined !== null` holds. -/
theorem C6_undefined_profile_counterexample :
    (handleDirectLogin ⟨some "abc123", JsOpt.val ⟨"Alice", none⟩⟩
        (.resp 200 none ⟨true, none, JsOpt.undef⟩)).1
      = ⟨some "abc123", JsOpt.undef⟩
    ∧ managerIsAuthenticated ⟨some "abc123", JsOpt.undef⟩ = true
    ∧ JsOpt.isVal (JsOpt.undef : JsOpt Student) = false := by
  refine ⟨rfl, rfl, rfl⟩

/-- Claim C6 (amended): `AuthManager.isAuthenticated()` returns true iff
the token store holds a truthy (nonempty) token and `currentUser` is not
strictly `null`.  After a page reload `currentUser` is `null`, so a held
token alone yields false, as the claim says; but a `currentUser` left
`undefined` by a malformed login response also counts as authenticated,
so "profile non-absent" is not equivalent to the implemented check. -/
theorem C6_is_authenticated_iff (a : AuthState) :
    managerIsAuthenticated a = true ↔
      ((∃ s, a.token = some s ∧ s ≠ "") ∧ a.currentUser ≠ JsOpt.null) := by
  obtain ⟨tok, cu⟩ := a
  rcases tok with _ | s
  · simp [managerIsAuthenticated, clientIsAuthenticated, strTruthy]
  · by_cases hs : s = "" <;>
      rcases cu with _ | _ | u <;>
      simp [managerIsAuthenticated, clientIsAuthenticated, strTruthy,
        jsStrictNeNull, hs]

/-- Witness for the amended C6 at the post-reload state: token held,
`currentUser` still `null`. -/
theorem C6_is_authenticated_iff_witness :
    managerIsAuthenticated ⟨some "abc123", JsOpt.null⟩ = true ↔
      ((∃ s, (some "abc123" : Option String) = some s ∧ s ≠ "")
        ∧ (JsOpt.null : JsOpt Student) ≠ JsOpt.null) :=
  C6_is_authenticated_iff ⟨some "abc123", JsOpt.null⟩

/-! ### The chat façade (ChatManager.sendMessage) -/

/-- The body of a chat response: `success` and the optional reply text
`response`. -/
structure ChatResponse where
  success : Bool
  response : Option String
deriving DecidableEq

/-- The fixed fallback shown when the response shape is wrong
(`ChatManager.sendMessage`, else-branch). -/
def chatFallbackShape : String :=
  "Désolé, je n\x27ai pas pu traiter votre demande."

/-- The fixed fallback shown when the chat request throws
(`ChatManager.sendMessage`, catch-branch). -/
def chatFallbackError : String :=
  "Une erreur est survenue. Veuillez réessayer."

/-- `ChatManager.sendMessage`, reduced to the assistant message it adds to
the conversation.  The try-block sends the message through
`apiClient.sendChatMessage` (hence `request`); on
`response.success && response.response` the reply text is shown, on any
other shape the fixed shape-fallback is shown, and the catch turns any
thrown error into the fixed error-fallback — the function is total, so no
error reaches the caller. -/
def sendMessage (token : Option String)
    (outcome : FetchOutcome ChatResponse) : String :=
  match (request token outcome).2 with
  | .error _ => chatFallbackError
  | .ok resp =>
    if resp.success && strTruthy resp.response then
      resp.response.getD ""
    else
      chatFallbackShape

/-- Claim C7: a chat send shows the backend's reply text on
`{success: true, response: <nonempty>}`; on any other response shape it
shows the fixed shape-fallback apology, and on any transport failure
(network failure, or a non-2xx status such as 500 or 401) it shows the
fixed error-fallback apology — in every case a fixed user-facing phrase,
never a raw error, and `sendMessage` is total so nothing is thrown to the
caller. -/
theorem C7_chat_fallback (token : Option String) (s : String)
    (resp : ChatResponse) (m : String) (eb : Option ErrBody)
    (hs : s ≠ "") :
    sendMessage token (.resp 200 eb ⟨true, some s⟩) = s
    ∧ (resp.success = false →
        sendMessage token (.resp 200 eb resp) = chatFallbackShape)
    ∧ (resp.response = none →
        sendMessage token (.resp 200 eb resp) = chatFallbackShape)
    ∧ sendMessage token (.netFail m) = chatFallbackError
    ∧ sendMessage token (.resp 500 eb resp) = chatFallbackError
    ∧ sendMessage token (.resp 401 eb resp) = chatFallbackError := by
  refine ⟨?_, ?_, ?_, rfl, rfl, rfl⟩
  · simp [sendMessage, request, strTruthy, hs]
  · intro h
    simp [sendMessage, request, h]
  · intro h
    simp [sendMessage, request, h, strTruthy]

/-- Witness for C7: a concrete reply, a `success: false` shape, and a
network failure. -/
theorem C7_chat_fallback_witness :
    sendMessage none (.resp 200 none ⟨true, some "Bonjour"⟩) = "Bonjour"
    ∧ sendMessage none (.resp 200 none ⟨false, none⟩) = chatFallbackShape
    ∧ sendMessage none (.netFail "Failed to fetch") = chatFallbackError := by
  have h := C7_chat_fallback none "Bonjour" ⟨false, none⟩ "Failed to fetch"
    none (by decide)
  exact ⟨h.1, h.2.1 rfl, h.2.2.2.1⟩

/-! ### The grades scenarios -/

/-- The first entry of Scenario C:
`{subject: "Math", grade: "15", out_of: "20"}`. -/
def scenarioCMath : GradeItem :=
  ⟨"Math", some (.str "15"), some (.str "20"), none, none, none⟩

/-- The second entry of Scenario C: `{subject: "Art", grade: null}`. -/
def scenarioCArt : GradeItem :=
  ⟨"Art", some .null, none, none, none, none⟩

/-- Claim C8: on the grades input
`[{subject: "Math", grade: "15", out_of: "20"}, {subject: "Art", grade:
null}]` the average computation uses only the first entry, the computed
average is exactly 15 (out of 20), and the second entry with its absent
grade is filtered out before any numeric operation touches it (both by
the average filter and by the rendering filter), so nothing is thrown. -/
theorem C8_scenario_grades_average :
    validGrades [scenarioCMath, scenarioCArt] = [scenarioCMath]
    ∧ gradesAverage [scenarioCMath, scenarioCArt] = some 15
    ∧ renderedGrades [scenarioCMath, scenarioCArt] = [scenarioCMath] := by
  refine ⟨by decide, ?_, by decide⟩
  have hv : validGrades [scenarioCMath, scenarioCArt] = [scenarioCMath] := by
    decide
  have h15 : parseDecimalParts "15" = some (false, 15, 0, 0) := by decide
  have h20 : parseDecimalParts "20" = some (false, 20, 0, 0) := by decide
  simp only [gradesAverage, hv]
  norm_num [gradeTerm, parseFloatJs, parseDecimal, jsDiv, jsMul, jsAdd,
    scenarioCMath, h15, h20]

/-- Claim C10: an entry whose `grade` field is falsy (the number 0, the
empty string, `null`, or a missing field) or whose `out_of` field is falsy
is excluded from the average computation, and an entry with a falsy
`grade` is also omitted from the rendered list — a numeric grade of 0 is
treated like "not yet graded", and an absent `out_of` removes the entry
from the average rather than defaulting to 20. -/
theorem C10_falsy_grade_excluded (grades : List GradeItem) (g : GradeItem)
    (h : jsFieldTruthy g.grade = false ∨ jsFieldTruthy g.out_of = false) :
    g ∉ validGrades grades
    ∧ (jsFieldTruthy g.grade = false → g ∉ renderedGrades grades) := by
  constructor
  · intro hmem
    rw [validGrades, List.mem_filter] at hmem
    rcases h with h | h <;> simp [h] at hmem
  · intro hg hmem
    rw [renderedGrades, List.mem_filter] at hmem
    simp [hg] at hmem

/-- Witness for C10: the legitimate numeric grade 0 is excluded from both
the average inputs and the rendered list. -/
theorem C10_falsy_grade_excluded_witness :
    (⟨"Sport", some (.num 0), some (.num 20), none, none, none⟩ : GradeItem)
        ∉ validGrades
          [⟨"Sport", some (.num 0), some (.num 20), none, none, none⟩]
    ∧ (⟨"Sport", some (.num 0), some (.num 20), none, none, none⟩ : GradeItem)
        ∉ renderedGrades
          [⟨"Sport", some (.num 0), some (.num 20), none, none, none⟩] := by
  have h := C10_falsy_grade_excluded
    [⟨"Sport", some (.num 0), some (.num 20), none, none, none⟩]
    ⟨"Sport", some (.num 0), some (.num 20), none, none, none⟩
    (Or.inl (by decide))
  exact ⟨h.1, h.2 (by decide)⟩

end AssistantPronote
